import Mathlib

/-!
# UNIETAXI dispatch core: a shallow embedding

This file embeds the dispatch/synchronization core of the UNIETAXI
ride-dispatch simulator (`config.py`, `models.py`, `sistema_central.py`,
`hilos.py`) and proves or refutes the frozen specification claims about it.

Conventions of the embedding:

* Python floats are modelled as exact rationals (`ℚ`); machine rounding is
  not relevant to any claim settled here.
* Python objects mutated in place are modelled by value: a mutation of a
  vehicle that is an element of the system's vehicle list is an update of
  the list entry with the same `id_taxi` (ids are unique among affiliated
  vehicles), mirroring reference aliasing.
* `math.sqrt` produces irrational values, so the matching scan — which only
  ever *compares* distances with each other and with the search radius —
  is carried out on squared distances.  `Real.sqrt` is strictly monotone
  and injective on nonnegatives, hence every comparison the source makes
  on square roots is equivalent to the comparison of the radicands; the
  bridge lemmas below restate the results in terms of the genuine
  Euclidean distance `Real.sqrt (distSq p q)`.
* The trip pipeline reads the module-level configuration dictionary
  `config.TAXI_CONFIG`; the embedding passes that dictionary explicitly as
  a `TaxiConfig` value, with `TAXI_CONFIG` the concrete one of `config.py`.
* The rating drawn by `random.randint(3, 5)` is an explicit parameter of
  the pipeline (an injectable random source), as is the distance function
  (`calcular_distancia`, whose square-root values are not representable
  in `ℚ`); every pipeline theorem is quantified over both.
-/

namespace UnieTaxi

/-! ## Configuration (`config.py`) -/

/-- `config.TAXI_CONFIG`: the operation parameters of the dispatcher.
`TARIFA_POR_METRO` is `none` when the key is absent (`dict.get` returns
`None`). -/
structure TaxiConfig where
  RADIO_BUSQUEDA_KM : ℚ
  TARIFA_POR_KM : ℚ
  TARIFA_POR_METRO : Option ℚ
  VELOCIDAD_PROMEDIO_KMH : ℚ
  COMISION_EMPRESA : ℚ
deriving DecidableEq

/-- The concrete `TAXI_CONFIG` dictionary of `config.py` (radius 2.0 km,
2.5 $/km, 1.0 $/m configured, 60 km/h, 20 % commission). -/
def TAXI_CONFIG : TaxiConfig :=
  { RADIO_BUSQUEDA_KM := 2
    TARIFA_POR_KM := 5 / 2
    TARIFA_POR_METRO := some 1
    VELOCIDAD_PROMEDIO_KMH := 60
    COMISION_EMPRESA := 1 / 5 }

/-- `config.CALIFICACIONES["MINIMA"]`. -/
def CALIFICACIONES_MINIMA : ℤ := 1

/-- `config.CALIFICACIONES["MAXIMA"]`. -/
def CALIFICACIONES_MAXIMA : ℤ := 5

/-- `config.CALIFICACIONES["INICIAL"]`. -/
def CALIFICACIONES_INICIAL : ℚ := 5

/-- `config.VALIDACIONES["TARJETA_DIGITOS"]`. -/
def TARJETA_DIGITOS : Nat := 16

/-- `config.SEGUIMIENTO["SERVICIOS_POR_DIA"]`. -/
def SEGUIMIENTO_SERVICIOS_POR_DIA : Nat := 5

/-! ## Data model (`models.py`) -/

/-- `models.Cliente` (behavioural fields; registration timestamps are
omitted, they never influence control flow). -/
structure Cliente where
  cedula : ℤ
  nombre : String
  apellido : String
  tarjeta : String
  ubicacion_actual : ℚ × ℚ := (0, 0)
  destino : ℚ × ℚ := (0, 0)
  taxi_asignado : Option Nat := none
  en_servicio : Bool := false
  estado : String := "activo"
deriving DecidableEq

/-- `models.Taxi` (behavioural fields; timestamps and map colour omitted). -/
structure Taxi where
  id_taxi : Nat
  cedula : ℤ
  nombre : String
  apellido : String
  placa : String
  marca : String
  modelo : String
  velocidad : ℚ
  ubicacion : ℚ × ℚ := (0, 0)
  disponible : Bool := true
  calificacion_total : ℚ := CALIFICACIONES_INICIAL
  cantidad_servicios : Nat := 0
  ganancia_diaria : ℚ := 0
  ganancia_total : ℚ := 0
  cliente_actual : Option ℤ := none
  estado : String := "activo"
deriving DecidableEq

/-- `Taxi.calcular_calificacion_promedio`: the configured initial value when
no trip has completed, otherwise the stored total divided by the trip
count. -/
def Taxi.calcular_calificacion_promedio (t : Taxi) : ℚ :=
  if t.cantidad_servicios = 0 then CALIFICACIONES_INICIAL
  else t.calificacion_total / t.cantidad_servicios

/-- `Taxi.agregar_calificacion`: adds a rating to the running total and
bumps the trip count when the rating is inside the configured bounds;
`none` models the `ValueError` raised outside them. -/
def Taxi.agregar_calificacion (t : Taxi) (calificacion : ℤ) : Option Taxi :=
  if CALIFICACIONES_MINIMA ≤ calificacion ∧ calificacion ≤ CALIFICACIONES_MAXIMA then
    some { t with
            calificacion_total := t.calificacion_total + calificacion
            cantidad_servicios := t.cantidad_servicios + 1 }
  else none

/-- `Taxi.agregar_ganancia`: accrues a positive amount on both the daily
and the cumulative ledger; non-positive amounts are ignored. -/
def Taxi.agregar_ganancia (t : Taxi) (monto : ℚ) : Taxi :=
  if 0 < monto then
    { t with
        ganancia_diaria := t.ganancia_diaria + monto
        ganancia_total := t.ganancia_total + monto }
  else t

/-- `Taxi.resetear_ganancia_diaria`. -/
def Taxi.resetear_ganancia_diaria (t : Taxi) : Taxi :=
  { t with ganancia_diaria := 0 }

/-- `models.Servicio` (behavioural fields; wall-clock timestamps omitted).
`distancia_km` stores whatever the injected distance function returned,
exactly as the Python object stores the `calcular_distancia` result. -/
structure Servicio where
  id_servicio : Nat
  id_taxi : Nat
  id_cliente : ℤ
  origen : ℚ × ℚ
  destino : ℚ × ℚ
  distancia_km : ℚ
  costo : ℚ
  calificacion : ℤ := 0
  dia : Nat := 0
  completado : Bool := false
  en_seguimiento : Bool := false
deriving DecidableEq

/-! ## System state (`sistema_central.SistemaCentral`) -/

/-- The mutable fields of `SistemaCentral` touched by the embedded
operations.  The eight mutual-exclusion semaphores have no state-level
content in a sequential embedding; the interleaving-sensitive claims are
settled against the dedicated transition systems further below. -/
structure SistemaState where
  taxis : List Taxi := []
  clientes : List Cliente := []
  servicios_completados : List Servicio := []
  servicios_seguimiento : List Servicio := []
  dia_actual : Nat := 1
  servicios_activos : ℤ := 0
  fin_del_dia : Bool := false
  contador_servicios : Nat := 0
  ganancia_total_empresa : ℚ := 0
deriving DecidableEq

/-! ## Affiliation (`SistemaCentral.afiliar_cliente`) -/

/-- The normalisation `tarjeta.replace(" ", "").replace("-", "")`. -/
def limpiarTarjeta (tarjeta : String) : String :=
  String.mk (tarjeta.data.filter (fun c => c ≠ ' ' ∧ c ≠ '-'))

/-- The check `len(limpia) == 16 and limpia.isdigit()`.  Python's
`str.isdigit` also accepts non-ASCII Unicode digit characters; the
embedding restricts to the ASCII decimal digits, the only alphabet the
specification and every call site of the repository use. -/
def tarjetaValida (limpia : String) : Bool :=
  limpia.length = TARJETA_DIGITOS && limpia.data.all Char.isDigit

/-- `SistemaCentral.afiliar_cliente`: validate the cleaned card, reject
duplicate identities, otherwise append the new client (storing the cleaned
card).  Returns the updated state and the boolean result. -/
def afiliar_cliente (s : SistemaState) (cedula : ℤ)
    (nombre apellido tarjeta : String) : SistemaState × Bool :=
  let tarjeta_limpia := limpiarTarjeta tarjeta
  if ¬ tarjetaValida tarjeta_limpia then (s, false)
  else if s.clientes.any (fun c => c.cedula = cedula) then (s, false)
  else
    ({ s with clientes := s.clientes ++
        [{ cedula := cedula, nombre := nombre, apellido := apellido,
           tarjeta := tarjeta_limpia }] }, true)

/-! ## Day-lifecycle counter operations -/

/-- `SistemaCentral.activar_servicio` (the whole `mutex_fin_del_dia`
critical section): increments the active-trip counter unless the
day-ending flag is set, and returns the negation of the flag. -/
def activar_servicio (s : SistemaState) : SistemaState × Bool :=
  if s.fin_del_dia then (s, false)
  else ({ s with servicios_activos := s.servicios_activos + 1 }, true)

/-- `SistemaCentral.desactivar_servicio` (state part; the semaphore signal
it may emit is modelled in the lifecycle transition system below). -/
def desactivar_servicio (s : SistemaState) : SistemaState :=
  { s with servicios_activos := s.servicios_activos - 1 }

/-! ## Matching engine (`SistemaCentral.buscar_taxi_cercano`) -/

/-- The radicand of `SistemaCentral.calcular_distancia`: the source returns
`math.sqrt (distSq p1 p2)`.  All uses of the distance inside the matching
scan are comparisons, so the embedding carries this square (see the file
header). -/
def distSq (p1 p2 : ℚ × ℚ) : ℚ :=
  (p2.1 - p1.1) ^ 2 + (p2.2 - p1.2) ^ 2

/-- The eligibility test of the scan: `taxi.disponible and
taxi.estado == "activo"`. -/
def esCandidato (t : Taxi) : Bool :=
  t.disponible && t.estado == "activo"

/-- The `for taxi in self.taxis` scan of `buscar_taxi_cercano`, over the
position-tagged vehicle list.  The accumulator is the current choice
(`taxi_elegido`, with its position) and the square of the running
`distancia_minima` (initially the square of the search radius).  The
comparisons `distancia < distancia_minima` and
`distancia == distancia_minima` of the source, made on square roots, are
carried out on the radicands, which is equivalent. -/
def buscarLoop (origen : ℚ × ℚ) :
    List (Nat × Taxi) → Option (Nat × Taxi) → ℚ → Option (Nat × Taxi) × ℚ
  | [], elegido, dmin => (elegido, dmin)
  | (i, t) :: rest, elegido, dmin =>
    if esCandidato t then
      let d := distSq origen t.ubicacion
      if d < dmin then buscarLoop origen rest (some (i, t)) d
      else
        match elegido with
        | some e =>
          if d = dmin then
            if e.2.calcular_calificacion_promedio < t.calcular_calificacion_promedio
            then buscarLoop origen rest (some (i, t)) dmin
            else buscarLoop origen rest elegido dmin
          else buscarLoop origen rest elegido dmin
        | none => buscarLoop origen rest elegido dmin
    else buscarLoop origen rest elegido dmin

/-- `SistemaCentral.buscar_taxi_cercano`: run the scan, and, inside the
same critical section, mark the chosen vehicle unavailable.  The result
carries the position of the chosen vehicle in the list next to the
(updated) vehicle itself, standing for the object reference the source
returns. -/
def buscar_taxi_cercano (s : SistemaState) (origen : ℚ × ℚ) :
    SistemaState × Option (Nat × Taxi) :=
  match buscarLoop origen s.taxis.enum none (TAXI_CONFIG.RADIO_BUSQUEDA_KM ^ 2) with
  | (none, _) => (s, none)
  | (some (i, t), _) =>
    let t' := { t with disponible := false }
    ({ s with taxis := s.taxis.set i t' }, some (i, t'))

/-- `SistemaCentral.asignar_taxi`: on a successful match, record the
cross-references on both the rider and the vehicle.  The mutated objects
are written back to the state's collections (reference aliasing). -/
def asignar_taxi (s : SistemaState) (cliente : Cliente) :
    SistemaState × Option (Taxi × Cliente) :=
  match buscar_taxi_cercano s cliente.ubicacion_actual with
  | (s', none) => (s', none)
  | (s', some (i, t)) =>
    let t' := { t with cliente_actual := some cliente.cedula }
    let cliente' := { cliente with taxi_asignado := some t.id_taxi }
    ({ s' with
        taxis := s'.taxis.set i t'
        clientes := s'.clientes.map
          (fun c => if c.cedula = cliente.cedula then cliente' else c) },
      some (t', cliente'))

/-! ## Trip pipeline (`SistemaCentral.realizar_servicio`) -/

/-- The fare computation at the head of `realizar_servicio`: when the
smaller-unit rate `TARIFA_POR_METRO` is configured it is applied to the
distance converted to metres; only otherwise is the per-kilometre rate
used. -/
def calcular_costo (cfg : TaxiConfig) (distancia_km : ℚ) : ℚ :=
  match cfg.TARIFA_POR_METRO with
  | some tarifa_metro => distancia_km * 1000 * tarifa_metro
  | none => distancia_km * cfg.TARIFA_POR_KM

/-- The values returned by `realizar_servicio` through its mutations: the
state, the created trip record, and the vehicle and rider objects as the
caller sees them afterwards. -/
structure ServicioResult where
  state : SistemaState
  servicio : Servicio
  taxi : Taxi
  cliente : Cliente
deriving DecidableEq

/-- `SistemaCentral.realizar_servicio` (normal completion).  `dist` stands
for `calcular_distancia` and `calificacion` for the `random.randint(3, 5)`
draw (see the file header); `none` models an uncaught `ValueError` from
`agregar_calificacion` (impossible for the source's draw range).  The
steps, in source order: fare computation, counter increment and trip
creation, transit, vehicle relocation, rating, ledger updates, completed-
and tracked-list registration, and finally the release of the
reservation. -/
def realizar_servicio (cfg : TaxiConfig) (dist : ℚ × ℚ → ℚ × ℚ → ℚ)
    (calificacion : ℤ) (s : SistemaState) (cliente : Cliente) (taxi : Taxi) :
    Option ServicioResult :=
  let distancia_km := dist cliente.ubicacion_actual cliente.destino
  let costo := calcular_costo cfg distancia_km
  let contador := s.contador_servicios + 1
  let taxi₁ := { taxi with ubicacion := cliente.destino }
  match taxi₁.agregar_calificacion calificacion with
  | none => none
  | some taxi₂ =>
    let taxi₃ := taxi₂.agregar_ganancia costo
    let enSeguimiento :=
      s.servicios_seguimiento.length < SEGUIMIENTO_SERVICIOS_POR_DIA
    let servicio : Servicio :=
      { id_servicio := contador
        id_taxi := taxi.id_taxi
        id_cliente := cliente.cedula
        origen := cliente.ubicacion_actual
        destino := cliente.destino
        distancia_km := distancia_km
        costo := costo
        calificacion := calificacion
        dia := s.dia_actual
        completado := true
        en_seguimiento := decide enSeguimiento }
    let taxi₄ := { taxi₃ with disponible := true, cliente_actual := none }
    let cliente' := { cliente with taxi_asignado := none, en_servicio := false }
    some
      { state :=
          { s with
              contador_servicios := contador
              servicios_completados := s.servicios_completados ++ [servicio]
              servicios_seguimiento :=
                if enSeguimiento then s.servicios_seguimiento ++ [servicio]
                else s.servicios_seguimiento
              taxis := s.taxis.map
                (fun t => if t.id_taxi = taxi.id_taxi then taxi₄ else t)
              clientes := s.clientes.map
                (fun c => if c.cedula = cliente.cedula then cliente' else c) }
        servicio := servicio
        taxi := taxi₄
        cliente := cliente' }

/-- `realizar_servicio` when an exception is raised during the simulated
transit (the `time.sleep` call): everything before the sleep has already
happened — only the unsynchronized counter increment touches shared state
— and nothing after it runs; in particular the release of the reservation
at the end of the function is skipped, so the vehicle and rider objects are
left exactly as they were. -/
def realizar_servicio_transit_fault (s : SistemaState) : SistemaState :=
  { s with contador_servicios := s.contador_servicios + 1 }

/-- One iteration of `hilos.hilo_cliente` in which the pipeline raises
during transit: the exception is caught, and the `finally` block still
runs `desactivar_servicio`; no other cleanup happens. -/
def hilo_cliente_iteracion_fallida (s : SistemaState) : SistemaState :=
  desactivar_servicio (realizar_servicio_transit_fault s)

/-! ## Daily settlement (`SistemaCentral.cierre_contable_diario`) -/

/-- `SistemaCentral.cierre_contable_diario`: one pass over the vehicle
list; every vehicle with positive daily earnings contributes its
commission to the day's operator total and has its daily earnings reset;
the operator total is then accrued.  The in-place loop is rendered as the
`map`, the running accumulator `ganancia_empresa_dia` as the `sum`. -/
def cierre_contable_diario (s : SistemaState) : SistemaState :=
  { s with
      taxis := s.taxis.map
        (fun t => if 0 < t.ganancia_diaria then t.resetear_ganancia_diaria else t)
      ganancia_total_empresa := s.ganancia_total_empresa +
        (s.taxis.map (fun t =>
          if 0 < t.ganancia_diaria
          then t.ganancia_diaria * TAXI_CONFIG.COMISION_EMPRESA else 0)).sum }

/-! ## The unsynchronized trip-id counter (`realizar_servicio`, two threads)

`realizar_servicio` runs `self.contador_servicios += 1` and then reads
`self.contador_servicios` into the new trip's `id_servicio` without
holding any lock (`mutex_servicios_completados` is acquired only later,
for the ledger append).  Under CPython each of the three shared-memory
accesses — the read of the counter, the write of the incremented value,
and the read that initialises the `Servicio` — is individually atomic,
but nothing orders them across threads.  The model below interleaves two
pipeline executions at exactly that granularity. -/

namespace ContadorRace

/-- Shared counter plus, per thread, the temporary of the `+=` statement
and the id the thread stored into its `Servicio`. -/
structure RaceState where
  contador : Nat
  tmp1 : Option Nat := none
  tmp2 : Option Nat := none
  id1 : Option Nat := none
  id2 : Option Nat := none
deriving DecidableEq

/-- The atomic memory accesses of the two threads: `read i` loads the
counter into thread `i`'s temporary, `write i` stores the incremented
temporary back, `mkServicio i` reads the counter into the thread's trip
id. -/
inductive RaceLabel where
  | read1 | write1 | mkServicio1
  | read2 | write2 | mkServicio2
deriving DecidableEq

/-- One atomic step; `none` when the thread has not yet performed the load
its store depends on (program order within each thread). -/
def raceStep (s : RaceState) : RaceLabel → Option RaceState
  | .read1 => some { s with tmp1 := some s.contador }
  | .write1 => s.tmp1.map (fun v => { s with contador := v + 1 })
  | .mkServicio1 => some { s with id1 := some s.contador }
  | .read2 => some { s with tmp2 := some s.contador }
  | .write2 => s.tmp2.map (fun v => { s with contador := v + 1 })
  | .mkServicio2 => some { s with id2 := some s.contador }

/-- Run a schedule of atomic steps. -/
def runRace (s : RaceState) : List RaceLabel → Option RaceState
  | [] => some s
  | l :: ls => (raceStep s l).bind (fun s' => runRace s' ls)

/-- The interleaving in which both threads load the counter before either
stores: both trips then receive the same id. -/
def duplicateSchedule : List RaceLabel :=
  [.read1, .read2, .write1, .write2, .mkServicio1, .mkServicio2]

end ContadorRace

/-! ## The day-lifecycle quiescence barrier as a transition system

The interleaving-sensitive part of the day lifecycle involves exactly four
shared variables: `fin_del_dia`, `servicios_activos`, the permit count of
`sem_no_hay_servicios_activos`, and the controller's position inside
`finalizar_dia`.  The atomic actions are the critical sections of the
source:

* `ctrlIniciar` — `iniciar_nuevo_dia`'s `fin_del_dia = False` block;
* `clienteActivar i` — client `i`'s `activar_servicio` critical section
  (`hilos.hilo_cliente` returns without entering service when it fails);
* `ctrlSetFlag` — `finalizar_dia`'s `fin_del_dia = True` block;
* `clienteDesactivar i` — client `i`'s `desactivar_servicio` critical
  section, including the conditional semaphore release;
* `ctrlCheck` — `finalizar_dia`'s unlocked read
  `if self.servicios_activos > 0`;
* `ctrlAcquire` — `self.sem_no_hay_servicios_activos.acquire()`, enabled
  only while a permit is available;
* `ctrlReportes` — the `generar_reporte_diario()` /
  `cierre_contable_diario()` calls followed by `dia_actual += 1`; the
  controller is at `reportando` exactly while these run. -/

namespace Lifecycle

/-- The controller's position inside the day loop of
`hilos.hilo_sistema_principal` / `SistemaCentral.finalizar_dia`. -/
inductive CtrlPc where
  | antesDelDia   -- before `iniciar_nuevo_dia`
  | diaAbierto    -- day open, before `finalizar_dia` sets the flag
  | flagPuesto    -- flag set, about to read the counter
  | esperando     -- blocked on the quiescence semaphore
  | reportando    -- running the daily report and settlement
deriving DecidableEq

/-- The position of one client task of `hilos.hilo_cliente` (one
activation/deactivation round per client suffices for the claims). -/
inductive ClientePc where
  | inicio | enServicio | terminado
deriving DecidableEq

/-- The shared lifecycle variables plus every task's position. -/
structure Config where
  fin_del_dia : Bool
  servicios_activos : ℤ
  sem : Nat
  ctrl : CtrlPc
  clientes : List ClientePc
deriving DecidableEq

/-- The initial configuration of `SistemaCentral.__init__`: flag down,
no active trips, the quiescence semaphore at zero permits, the controller
before its first day. -/
def init (n : Nat) : Config :=
  { fin_del_dia := false
    servicios_activos := 0
    sem := 0
    ctrl := .antesDelDia
    clientes := List.replicate n .inicio }

/-- The atomic actions (see the section comment). -/
inductive Label where
  | ctrlIniciar
  | ctrlSetFlag
  | ctrlCheck
  | ctrlAcquire
  | ctrlReportes
  | clienteActivar (i : Nat)
  | clienteDesactivar (i : Nat)
deriving DecidableEq

/-- One atomic step; `none` when the action is not enabled (wrong program
position, or a blocking acquire with no permit). -/
def step (c : Config) : Label → Option Config
  | .ctrlIniciar =>
    if c.ctrl = .antesDelDia then
      some { c with fin_del_dia := false, ctrl := .diaAbierto }
    else none
  | .ctrlSetFlag =>
    if c.ctrl = .diaAbierto then
      some { c with fin_del_dia := true, ctrl := .flagPuesto }
    else none
  | .ctrlCheck =>
    if c.ctrl = .flagPuesto then
      if 0 < c.servicios_activos then some { c with ctrl := .esperando }
      else some { c with ctrl := .reportando }
    else none
  | .ctrlAcquire =>
    if c.ctrl = .esperando ∧ 0 < c.sem then
      some { c with sem := c.sem - 1, ctrl := .reportando }
    else none
  | .ctrlReportes =>
    if c.ctrl = .reportando then some { c with ctrl := .antesDelDia }
    else none
  | .clienteActivar i =>
    match c.clientes[i]? with
    | some .inicio =>
      if c.fin_del_dia then
        some { c with clientes := c.clientes.set i .terminado }
      else
        some { c with
                servicios_activos := c.servicios_activos + 1
                clientes := c.clientes.set i .enServicio }
    | _ => none
  | .clienteDesactivar i =>
    match c.clientes[i]? with
    | some .enServicio =>
      let act := c.servicios_activos - 1
      some { c with
              servicios_activos := act
              sem := if act = 0 ∧ c.fin_del_dia then c.sem + 1 else c.sem
              clientes := c.clientes.set i .terminado }
    | _ => none

/-- Run a schedule of atomic actions. -/
def run (c : Config) : List Label → Option Config
  | [] => some c
  | l :: ls => (step c l).bind (fun c' => run c' ls)

/-- A two-day schedule with one rider per day.  On day 1 the rider's
deactivation lands between the controller's flag-set and its unlocked
counter read: the rider releases the quiescence permit, the controller
sees zero active trips and skips the acquire, and the permit leaks.  On
day 2 the controller's acquire consumes the stale permit while the second
rider's trip is still active. -/
def leakSchedule : List Label :=
  [.ctrlIniciar, .clienteActivar 0, .ctrlSetFlag, .clienteDesactivar 0,
   .ctrlCheck, .ctrlReportes,
   .ctrlIniciar, .clienteActivar 1, .ctrlSetFlag, .ctrlCheck, .ctrlAcquire]

end Lifecycle

/-! ## Concrete entities used to instantiate the theorems -/

/-- A vehicle exactly as `afiliar_taxi` constructs it: the `Taxi`
constructor defaults of `models.py` (available, no rider, initial rating
total, zero trips and earnings). -/
def taxiNuevo : Taxi :=
  { id_taxi := 1, cedula := 87654321, nombre := "Carlos", apellido := "R",
    placa := "ABC123", marca := "Toyota", modelo := "Corolla", velocidad := 60 }

/-- A second fresh vehicle. -/
def taxiNuevo2 : Taxi :=
  { id_taxi := 2, cedula := 87654322, nombre := "Luis", apellido := "S",
    placa := "XYZ789", marca := "Toyota", modelo := "Corolla", velocidad := 60 }

/-- A rider as `afiliar_cliente` constructs one, with locations set for a
trip request. -/
def clienteEjemplo : Cliente :=
  { cedula := 12345678, nombre := "Juan", apellido := "P",
    tarjeta := "4532123456789012",
    ubicacion_actual := (0, 0), destino := (3, 4) }

/-- A vehicle in the reserved state `asignar_taxi` leaves it in. -/
def taxiReservado : Taxi :=
  { taxiNuevo with disponible := false, cliente_actual := some 12345678 }

/-- A rider in mid-trip, as `hilo_cliente` marks it after a successful
assignment. -/
def clienteEnViaje : Cliente :=
  { clienteEjemplo with taxi_asignado := some 1, en_servicio := true }

/-- A system state with one trip in flight. -/
def estadoEnViaje : SistemaState :=
  { taxis := [taxiReservado], clientes := [clienteEnViaje], servicios_activos := 1 }

/-- Vehicle with rating average exactly 3, one kilometre east of the
origin. -/
def taxiPromedio3 : Taxi :=
  { taxiNuevo with ubicacion := (1, 0), calificacion_total := 3, cantidad_servicios := 1 }

/-- Vehicle with rating average exactly 5, one kilometre west of the
origin (equidistant with `taxiPromedio3` from `(0, 0)`). -/
def taxiPromedio5 : Taxi :=
  { taxiNuevo2 with ubicacion := (-1, 0), calificacion_total := 5, cantidad_servicios := 1 }

/-- The tie-break scenario of the specification: two equidistant in-radius
vehicles rated 3 and 5. -/
def estadoEmpate : SistemaState :=
  { taxis := [taxiPromedio3, taxiPromedio5] }

/-- A state at day's end: one vehicle with accumulated daily earnings,
one without. -/
def estadoCierre : SistemaState :=
  { taxis := [{ taxiNuevo with ganancia_diaria := 100, ganancia_total := 100 },
              taxiNuevo2] }

/-- The per-vehicle entity invariant of the data-model section of the
specification: unavailable exactly when a rider is referenced. -/
def TaxiInv (t : Taxi) : Prop :=
  t.disponible = false ↔ t.cliente_actual ≠ none

/-! ## Theorems -/

/-- The `Bool` eligibility test unfolded to a proposition. -/
theorem esCandidato_iff (t : Taxi) :
    esCandidato t = true ↔ t.disponible = true ∧ t.estado = "activo" := by
  simp [esCandidato]

/-- C8: `activar_servicio` increments the active-trip counter by exactly
one and returns `True` when the day-ending flag is down at the moment the
call holds the day-ending lock; when the flag is up it returns `False`
with no state change at all. -/
theorem activar_servicio_spec (s : SistemaState) :
    (s.fin_del_dia = false →
      activar_servicio s =
        ({ s with servicios_activos := s.servicios_activos + 1 }, true)) ∧
    (s.fin_del_dia = true → activar_servicio s = (s, false)) := by
  constructor <;> intro h <;> simp [activar_servicio, h]

/-- Witness for C8: both branches of `activar_servicio_spec` at concrete
states. -/
theorem activar_servicio_spec_witness :
    activar_servicio {} = ({ servicios_activos := 1 }, true) ∧
    activar_servicio { fin_del_dia := true } = ({ fin_del_dia := true }, false) := by
  refine ⟨?_, (activar_servicio_spec { fin_del_dia := true }).2 rfl⟩
  have h := (activar_servicio_spec {}).1 rfl
  simpa using h

/-- C9: `afiliar_cliente` rejects, without any state change, every
affiliation whose card — after removing spaces and dashes — is not exactly
16 decimal digits, and every duplicate identity; when the cleaned card has
exactly 16 digits and the identity is new, it succeeds and appends exactly
one client (storing the cleaned card). -/
theorem afiliar_cliente_spec (s : SistemaState) (cedula : ℤ)
    (nombre apellido tarjeta : String) :
    (tarjetaValida (limpiarTarjeta tarjeta) = false →
      afiliar_cliente s cedula nombre apellido tarjeta = (s, false)) ∧
    (s.clientes.any (fun c => c.cedula = cedula) = true →
      afiliar_cliente s cedula nombre apellido tarjeta = (s, false)) ∧
    (tarjetaValida (limpiarTarjeta tarjeta) = true →
      s.clientes.any (fun c => c.cedula = cedula) = false →
      afiliar_cliente s cedula nombre apellido tarjeta =
        ({ s with clientes := s.clientes ++
            [{ cedula := cedula, nombre := nombre, apellido := apellido,
               tarjeta := limpiarTarjeta tarjeta }] }, true)) := by
  refine ⟨fun h => ?_, fun h => ?_, fun h h' => ?_⟩
  · simp [afiliar_cliente, h]
  · by_cases hv : tarjetaValida (limpiarTarjeta tarjeta) <;>
      simp [afiliar_cliente, hv, h]
  · simp [afiliar_cliente, h, h']

/-- Witness for C9: a 15-digit card is rejected with no state change, and
a 16-digit card (with spaces, for a fresh identity) is accepted, appending
one client with the cleaned card stored. -/
theorem afiliar_cliente_spec_witness :
    afiliar_cliente {} 7 "Juan" "P" "453212345678901" = ({}, false) ∧
    afiliar_cliente {} 7 "Juan" "P" "4532 1234 5678 9012" =
      ({ clientes := [{ cedula := 7, nombre := "Juan", apellido := "P",
                        tarjeta := "4532123456789012" }] }, true) := by
  constructor
  · exact (afiliar_cliente_spec {} 7 "Juan" "P" "453212345678901").1 (by decide)
  · have h := (afiliar_cliente_spec {} 7 "Juan" "P" "4532 1234 5678 9012").2.2
      (by decide) (by decide)
    simpa using h

/-- C5 (refuting theorem): the rating bookkeeping of `models.py` seeds
`calificacion_total` with the initial value 5.0 but divides by
`cantidad_servicios`; a freshly affiliated vehicle that completes one trip
with the in-bounds rating 5 then reports the average (5 + 5) / 1 = 10,
outside the configured bounds [1, 5] — contradicting the repository's own
test CP-SC-04 (`test_sistema.py`). -/
theorem promedio_fuera_de_rango :
    (CALIFICACIONES_MINIMA ≤ 5 ∧ (5 : ℤ) ≤ CALIFICACIONES_MAXIMA) ∧
    (taxiNuevo.agregar_calificacion 5).map Taxi.calcular_calificacion_promedio =
      some 10 ∧
    ¬ ((10 : ℚ) ≤ (CALIFICACIONES_MAXIMA : ℚ)) := by
  refine ⟨by decide, ?_, by norm_num [CALIFICACIONES_MAXIMA]⟩
  norm_num [taxiNuevo, Taxi.agregar_calificacion, Taxi.calcular_calificacion_promedio,
    CALIFICACIONES_MINIMA, CALIFICACIONES_MAXIMA, CALIFICACIONES_INICIAL]

/-- C1 (failing execution): in the two-day schedule `leakSchedule` — a
valid interleaving of the source's critical sections — the controller
reaches the report/settlement step (`ctrl = reportando`) while the
active-trip counter is 1: the quiescence permit released on day 1 between
the controller's flag-set and its unlocked counter read leaks into day 2,
whose `acquire` then succeeds with a trip still in flight. -/
theorem settlement_with_active_trip :
    (Lifecycle.run (Lifecycle.init 2) Lifecycle.leakSchedule).map
        (fun c => (c.ctrl, c.servicios_activos, c.sem)) =
      some (Lifecycle.CtrlPc.reportando, 1, 0) := by
  decide

/-- C7 (counterexample): `self.contador_servicios += 1` and the subsequent
read into `Servicio(id_servicio=...)` are not protected by any lock, so
the interleaving in which both pipeline threads load the counter before
either stores hands both trips the same id. -/
theorem contador_duplicado :
    (ContadorRace.runRace { contador := 0 } ContadorRace.duplicateSchedule).map
        (fun s => (s.contador, s.id1, s.id2)) = some (1, some 1, some 1) := by
  decide

/-- C2 (counterexample): an exception raised during the simulated-transit
phase of `realizar_servicio` skips the release code at the end of the
function — there is no `try/finally` around the transit — and the caller's
`finally` only decrements the active-service counter; the vehicle stays
reserved and the rider stays marked in-trip. -/
theorem fallo_transito_no_libera :
    (hilo_cliente_iteracion_fallida estadoEnViaje).taxis.map
        (fun t => (t.disponible, t.cliente_actual)) = [(false, some 12345678)] ∧
    (hilo_cliente_iteracion_fallida estadoEnViaje).clientes.map
        (fun c => (c.en_servicio, c.taxi_asignado)) = [(true, some 1)] ∧
    (hilo_cliente_iteracion_fallida estadoEnViaje).servicios_activos = 0 := by
  decide

/-- The pipeline completes normally (no `ValueError`) whenever the drawn
rating is inside the configured bounds — in particular for every draw of
the source's `random.randint(3, 5)`. -/
theorem realizar_servicio_isSome (cfg : TaxiConfig) (dist : ℚ × ℚ → ℚ × ℚ → ℚ)
    (calificacion : ℤ) (s : SistemaState) (cliente : Cliente) (taxi : Taxi)
    (h : CALIFICACIONES_MINIMA ≤ calificacion ∧
         calificacion ≤ CALIFICACIONES_MAXIMA) :
    (realizar_servicio cfg dist calificacion s cliente taxi).isSome := by
  simp [realizar_servicio, Taxi.agregar_calificacion, h]

/-- C4: the fare recorded on every completed trip follows the smaller-unit
priority rule: with `TARIFA_POR_METRO` configured the fare is the distance
converted to metres times that rate, and only with it absent is it the
distance times `TARIFA_POR_KM`. -/
theorem realizar_servicio_costo (cfg : TaxiConfig) (dist : ℚ × ℚ → ℚ × ℚ → ℚ)
    (calificacion : ℤ) (s : SistemaState) (cliente : Cliente) (taxi : Taxi)
    (res : ServicioResult)
    (h : realizar_servicio cfg dist calificacion s cliente taxi = some res) :
    res.servicio.completado = true ∧
    (∀ tm, cfg.TARIFA_POR_METRO = some tm →
      res.servicio.costo =
        dist cliente.ubicacion_actual cliente.destino * 1000 * tm) ∧
    (cfg.TARIFA_POR_METRO = none →
      res.servicio.costo =
        dist cliente.ubicacion_actual cliente.destino * cfg.TARIFA_POR_KM) := by
  simp only [realizar_servicio] at h
  split at h
  · cases h
  · cases h
    refine ⟨rfl, fun tm htm => ?_, fun hnone => ?_⟩
    · simp [calcular_costo, htm]
    · simp [calcular_costo, hnone]

/-- Witness for C4: with the repository's configuration (1 $/m
configured) a 2 km trip costs 2 × 1000 × 1; with the smaller-unit rate
removed the same trip costs 2 × 2.5. -/
theorem realizar_servicio_costo_witness :
    (realizar_servicio TAXI_CONFIG (fun _ _ => 2) 4 {} clienteEjemplo
        taxiNuevo).map (fun r => r.servicio.costo) = some (2 * 1000 * 1) ∧
    (realizar_servicio { TAXI_CONFIG with TARIFA_POR_METRO := none }
        (fun _ _ => 2) 4 {} clienteEjemplo taxiNuevo).map
        (fun r => r.servicio.costo) = some (2 * (5 / 2)) := by
  constructor
  · cases hres : realizar_servicio TAXI_CONFIG (fun _ _ => 2) 4 {} clienteEjemplo
        taxiNuevo with
    | none => exact absurd hres (by decide)
    | some res => simp [(realizar_servicio_costo _ _ _ _ _ _ _ hres).2.1 1 rfl]
  · cases hres : realizar_servicio { TAXI_CONFIG with TARIFA_POR_METRO := none }
        (fun _ _ => 2) 4 {} clienteEjemplo taxiNuevo with
    | none => exact absurd hres (by decide)
    | some res =>
      simp [(realizar_servicio_costo _ _ _ _ _ _ _ hres).2.2 rfl, TAXI_CONFIG]

/-- C2 (amended): on normal completion the pipeline does release the
reservation — vehicle available again with no rider reference, rider with
no assigned vehicle and not in-trip, both written back to the state's
collections — but on a transit-phase exception the release is skipped
entirely: the vehicle and rider collections are untouched (only the
unsynchronized trip counter has moved), and the caller's `finally` merely
decrements the active-service counter. -/
theorem liberacion_recursos (cfg : TaxiConfig) (dist : ℚ × ℚ → ℚ × ℚ → ℚ)
    (calificacion : ℤ) (s : SistemaState) (cliente : Cliente) (taxi : Taxi)
    (res : ServicioResult)
    (h : realizar_servicio cfg dist calificacion s cliente taxi = some res) :
    (res.taxi.disponible = true ∧ res.taxi.cliente_actual = none ∧
     res.cliente.taxi_asignado = none ∧ res.cliente.en_servicio = false ∧
     res.state.taxis = s.taxis.map
       (fun t => if t.id_taxi = taxi.id_taxi then res.taxi else t) ∧
     res.state.clientes = s.clientes.map
       (fun c => if c.cedula = cliente.cedula then res.cliente else c)) ∧
    ((realizar_servicio_transit_fault s).taxis = s.taxis ∧
     (realizar_servicio_transit_fault s).clientes = s.clientes ∧
     (hilo_cliente_iteracion_fallida s).taxis = s.taxis ∧
     (hilo_cliente_iteracion_fallida s).clientes = s.clientes) := by
  refine ⟨?_, rfl, rfl, rfl, rfl⟩
  simp only [realizar_servicio] at h
  split at h
  · cases h
  · cases h
    exact ⟨rfl, rfl, rfl, rfl, rfl, rfl⟩

/-- Witness for C2 (amended): a concrete normal completion starting from
the reserved state releases vehicle and rider. -/
theorem liberacion_recursos_witness :
    (realizar_servicio TAXI_CONFIG (fun _ _ => 2) 4 estadoEnViaje clienteEnViaje
        taxiReservado).map (fun r =>
      (r.taxi.disponible, r.taxi.cliente_actual,
       r.cliente.taxi_asignado, r.cliente.en_servicio)) =
      some (true, none, none, false) := by
  cases hres : realizar_servicio TAXI_CONFIG (fun _ _ => 2) 4 estadoEnViaje
      clienteEnViaje taxiReservado with
  | none => exact absurd hres (by decide)
  | some res =>
    obtain ⟨⟨h1, h2, h3, h4, _⟩, _⟩ := liberacion_recursos _ _ _ _ _ _ _ hres
    simp [h1, h2, h3, h4]

/-- C7 (amended): in sequential (assignment) order the pipeline hands out
ids one above the running counter: a first execution assigns
`contador + 1` and leaves the counter there, a second assigns
`contador + 2`; successive ids are strictly increasing and in particular
distinct. -/
theorem id_servicio_secuencial (cfg : TaxiConfig) (dist : ℚ × ℚ → ℚ × ℚ → ℚ)
    (calificacion : ℤ) (s : SistemaState) (cliente : Cliente) (taxi : Taxi)
    (res : ServicioResult)
    (h : realizar_servicio cfg dist calificacion s cliente taxi = some res)
    (cfg' : TaxiConfig) (dist' : ℚ × ℚ → ℚ × ℚ → ℚ) (calificacion' : ℤ)
    (cliente' : Cliente) (taxi' : Taxi) (res' : ServicioResult)
    (h' : realizar_servicio cfg' dist' calificacion' res.state cliente' taxi' =
      some res') :
    res.servicio.id_servicio = s.contador_servicios + 1 ∧
    res.state.contador_servicios = s.contador_servicios + 1 ∧
    res'.servicio.id_servicio = s.contador_servicios + 2 ∧
    res.servicio.id_servicio < res'.servicio.id_servicio := by
  have e1 : res.servicio.id_servicio = s.contador_servicios + 1 ∧
      res.state.contador_servicios = s.contador_servicios + 1 := by
    simp only [realizar_servicio] at h
    split at h
    · cases h
    · cases h
      exact ⟨rfl, rfl⟩
  have e2 : res'.servicio.id_servicio = res.state.contador_servicios + 1 := by
    simp only [realizar_servicio] at h'
    split at h'
    · cases h'
    · cases h'
      rfl
  refine ⟨e1.1, e1.2, ?_, ?_⟩ <;> omega

/-- Witness for C7 (amended): two concrete successive pipeline runs from a
fresh system receive ids 1 and 2. -/
theorem id_servicio_secuencial_witness :
    ((realizar_servicio TAXI_CONFIG (fun _ _ => 2) 4 {} clienteEjemplo
        taxiNuevo).bind (fun r =>
      (realizar_servicio TAXI_CONFIG (fun _ _ => 2) 4 r.state clienteEjemplo
          taxiNuevo2).map (fun r' =>
        (r.servicio.id_servicio, r'.servicio.id_servicio)))) = some (1, 2) := by
  cases hres : realizar_servicio TAXI_CONFIG (fun _ _ => 2) 4 {} clienteEjemplo
      taxiNuevo with
  | none => exact absurd hres (by decide)
  | some res =>
    cases hres' : realizar_servicio TAXI_CONFIG (fun _ _ => 2) 4 res.state
        clienteEjemplo taxiNuevo2 with
    | none =>
      have hs := realizar_servicio_isSome TAXI_CONFIG (fun _ _ => 2) 4 res.state
        clienteEjemplo taxiNuevo2 (by decide)
      rw [hres'] at hs
      cases hs
    | some res' =>
      obtain ⟨a, -, c, -⟩ :=
        id_servicio_secuencial _ _ _ _ _ _ _ hres _ _ _ _ _ _ hres'
      rw [Option.some_bind, hres', Option.map_some']
      simp [a, c]

/-- C10: the daily settlement resets exactly the per-day earnings of the
positive-earning vehicles and accrues the operator total by the commission
on the day's earnings; every other vehicle field and every other state
component is untouched. -/
theorem cierre_contable_spec (s : SistemaState)
    (h : ∀ t ∈ s.taxis, 0 ≤ t.ganancia_diaria) :
    (cierre_contable_diario s).taxis =
      s.taxis.map (fun t => { t with ganancia_diaria := 0 }) ∧
    (cierre_contable_diario s).ganancia_total_empresa =
      s.ganancia_total_empresa +
        (s.taxis.map
          (fun t => t.ganancia_diaria * TAXI_CONFIG.COMISION_EMPRESA)).sum ∧
    (cierre_contable_diario s).clientes = s.clientes ∧
    (cierre_contable_diario s).servicios_completados = s.servicios_completados ∧
    (cierre_contable_diario s).servicios_seguimiento = s.servicios_seguimiento ∧
    (cierre_contable_diario s).dia_actual = s.dia_actual ∧
    (cierre_contable_diario s).servicios_activos = s.servicios_activos ∧
    (cierre_contable_diario s).fin_del_dia = s.fin_del_dia ∧
    (cierre_contable_diario s).contador_servicios = s.contador_servicios := by
  refine ⟨?_, ?_, rfl, rfl, rfl, rfl, rfl, rfl, rfl⟩
  · simp only [cierre_contable_diario]
    apply List.map_congr_left
    intro t ht
    by_cases hpos : 0 < t.ganancia_diaria
    · simp [hpos, Taxi.resetear_ganancia_diaria]
    · have h0 : t.ganancia_diaria = 0 := le_antisymm (not_lt.mp hpos) (h t ht)
      cases t
      simp_all
  · simp only [cierre_contable_diario]
    congr 1
    apply congrArg
    apply List.map_congr_left
    intro t ht
    by_cases hpos : 0 < t.ganancia_diaria
    · simp [hpos]
    · have h0 : t.ganancia_diaria = 0 := le_antisymm (not_lt.mp hpos) (h t ht)
      simp [hpos, h0]

/-- Witness for C10: settling `estadoCierre` (one vehicle with 100 earned,
one with 0) accrues 20 to the operator, resets both daily ledgers and
preserves cumulative earnings. -/
theorem cierre_contable_spec_witness :
    (cierre_contable_diario estadoCierre).ganancia_total_empresa = 20 ∧
    (cierre_contable_diario estadoCierre).taxis.map Taxi.ganancia_diaria =
      [0, 0] ∧
    (cierre_contable_diario estadoCierre).taxis.map Taxi.ganancia_total =
      [100, 0] := by
  obtain ⟨h1, h2, -⟩ := cierre_contable_spec estadoCierre (by decide)
  refine ⟨?_, ?_, ?_⟩
  · rw [h2]
    norm_num [estadoCierre, taxiNuevo, taxiNuevo2, TAXI_CONFIG]
  · rw [h1]; decide
  · rw [h1]; decide

/-! ### The matching scan: step lemmas and full characterisation -/

/-- Scan step: an ineligible vehicle is skipped. -/
theorem buscarLoop_cons_skip (origen : ℚ × ℚ) (i : Nat) (u : Taxi)
    (rest : List (Nat × Taxi)) (acc : Option (Nat × Taxi)) (dmin : ℚ)
    (hc : esCandidato u = false) :
    buscarLoop origen ((i, u) :: rest) acc dmin =
      buscarLoop origen rest acc dmin := by
  simp [buscarLoop, hc]

/-- Scan step: a strictly closer eligible vehicle becomes the choice. -/
theorem buscarLoop_cons_mejor (origen : ℚ × ℚ) (i : Nat) (u : Taxi)
    (rest : List (Nat × Taxi)) (acc : Option (Nat × Taxi)) (dmin : ℚ)
    (hc : esCandidato u = true) (hlt : distSq origen u.ubicacion < dmin) :
    buscarLoop origen ((i, u) :: rest) acc dmin =
      buscarLoop origen rest (some (i, u)) (distSq origen u.ubicacion) := by
  simp [buscarLoop, hc, hlt]

/-- Scan step: with no current choice, an eligible vehicle that does not
beat the running minimum is passed over (the tie branch requires a current
choice). -/
theorem buscarLoop_cons_sinEleccion (origen : ℚ × ℚ) (i : Nat) (u : Taxi)
    (rest : List (Nat × Taxi)) (dmin : ℚ)
    (hc : esCandidato u = true) (hnlt : ¬ distSq origen u.ubicacion < dmin) :
    buscarLoop origen ((i, u) :: rest) none dmin =
      buscarLoop origen rest none dmin := by
  simp [buscarLoop, hc, hnlt]

/-- Scan step: an exact tie against the current choice is won by a
strictly higher rating average. -/
theorem buscarLoop_cons_empate (origen : ℚ × ℚ) (i : Nat) (u : Taxi)
    (rest : List (Nat × Taxi)) (e : Nat × Taxi) (dmin : ℚ)
    (hc : esCandidato u = true) (hnlt : ¬ distSq origen u.ubicacion < dmin)
    (hdeq : distSq origen u.ubicacion = dmin)
    (hprom : e.2.calcular_calificacion_promedio <
      u.calcular_calificacion_promedio) :
    buscarLoop origen ((i, u) :: rest) (some e) dmin =
      buscarLoop origen rest (some (i, u)) dmin := by
  simp [buscarLoop, hc, hnlt, hdeq, hprom]

/-- Scan step: otherwise the current choice stands. -/
theorem buscarLoop_cons_mantener (origen : ℚ × ℚ) (i : Nat) (u : Taxi)
    (rest : List (Nat × Taxi)) (e : Nat × Taxi) (dmin : ℚ)
    (hc : esCandidato u = true) (hnlt : ¬ distSq origen u.ubicacion < dmin)
    (h : ¬ (distSq origen u.ubicacion = dmin ∧
      e.2.calcular_calificacion_promedio < u.calcular_calificacion_promedio)) :
    buscarLoop origen ((i, u) :: rest) (some e) dmin =
      buscarLoop origen rest (some e) dmin := by
  by_cases hdeq : distSq origen u.ubicacion = dmin
  · have hnp : ¬ e.2.calcular_calificacion_promedio <
        u.calcular_calificacion_promedio := fun hp => h ⟨hdeq, hp⟩
    simp [buscarLoop, hc, hnlt, hdeq, hnp]
  · simp [buscarLoop, hc, hnlt, hdeq]

/-- Full characterisation of the matching scan, by induction along the
remaining list.  `r0` is the square of the initial search radius.  The two
entry hypotheses say what holds of the accumulator (`taxi_elegido` is an
eligible vehicle sitting at the running minimum, itself strictly inside
the radius; with no choice yet the running minimum is still the radius).
The conclusions characterise a successful scan — the choice is an eligible
listed vehicle at the minimal squared distance, strictly inside the
radius, beating every equidistant eligible vehicle's rating average — and
an empty scan (no eligible vehicle strictly inside the radius). -/
theorem buscarLoop_spec (origen : ℚ × ℚ) (r0 : ℚ) :
    ∀ (l : List (Nat × Taxi)) (acc : Option (Nat × Taxi)) (dmin : ℚ),
      (∀ p, acc = some p →
        esCandidato p.2 = true ∧ distSq origen p.2.ubicacion = dmin ∧
        dmin < r0) →
      (acc = none → dmin = r0) →
      (∀ j t dres, buscarLoop origen l acc dmin = (some (j, t), dres) →
        ((j, t) ∈ l ∨ acc = some (j, t)) ∧
        esCandidato t = true ∧
        distSq origen t.ubicacion = dres ∧ dres < r0 ∧ dres ≤ dmin ∧
        (∀ p ∈ l, esCandidato p.2 = true →
          dres ≤ distSq origen p.2.ubicacion) ∧
        (∀ p ∈ l, esCandidato p.2 = true →
          distSq origen p.2.ubicacion = dres →
          p.2.calcular_calificacion_promedio ≤
            t.calcular_calificacion_promedio) ∧
        (∀ p, acc = some p → distSq origen p.2.ubicacion = dres →
          p.2.calcular_calificacion_promedio ≤
            t.calcular_calificacion_promedio)) ∧
      (∀ dres, buscarLoop origen l acc dmin = (none, dres) →
        acc = none ∧ dres = r0 ∧
        ∀ p ∈ l, esCandidato p.2 = true →
          r0 ≤ distSq origen p.2.ubicacion) := by
  intro l
  induction l with
  | nil =>
    intro acc dmin hacc hnone
    constructor
    · intro j t dres h
      simp only [buscarLoop] at h
      injection h with ha hd
      subst hd
      obtain ⟨hcand, hdist, hlt⟩ := hacc (j, t) ha
      refine ⟨Or.inr ha, hcand, hdist, hlt, le_refl _, ?_, ?_, ?_⟩
      · intro p hp; cases hp
      · intro p hp; cases hp
      · intro p hp _
        rw [ha] at hp
        injection hp with hp
        rw [← hp]
    · intro dres h
      simp only [buscarLoop] at h
      injection h with ha hd
      subst hd
      exact ⟨ha, hnone ha, fun p hp => by cases hp⟩
  | cons hd rest ih =>
    intro acc dmin hacc hnone
    obtain ⟨i, u⟩ := hd
    have hdle : dmin ≤ r0 := by
      cases acc with
      | none => exact le_of_eq (hnone rfl)
      | some q => exact le_of_lt (hacc q rfl).2.2
    by_cases hc : esCandidato u = true
    · by_cases hlt : distSq origen u.ubicacion < dmin
      · -- the head vehicle becomes the choice
        have hstep := buscarLoop_cons_mejor origen i u rest acc dmin hc hlt
        have hdu : distSq origen u.ubicacion < r0 := lt_of_lt_of_le hlt hdle
        obtain ⟨ihsome, ihnone⟩ := ih (some (i, u)) (distSq origen u.ubicacion)
          (fun p hp => by
            injection hp with hp
            rw [← hp]
            exact ⟨hc, rfl, hdu⟩)
          (fun hp => by cases hp)
        constructor
        · intro j t dres h
          rw [hstep] at h
          obtain ⟨hmem, hcand, hdist, hltr, hdle', hmin, htie, hacct⟩ :=
            ihsome j t dres h
          refine ⟨?_, hcand, hdist, hltr, le_trans hdle' (le_of_lt hlt),
            ?_, ?_, ?_⟩
          · rcases hmem with hmem | hmem
            · exact Or.inl (List.mem_cons_of_mem _ hmem)
            · injection hmem with hmem
              exact Or.inl (hmem ▸ List.mem_cons_self _ _)
          · intro p hp hpc
            rcases List.mem_cons.mp hp with rfl | hp'
            · exact le_trans hdle' (le_of_eq rfl)
            · exact hmin p hp' hpc
          · intro p hp hpc hpd
            rcases List.mem_cons.mp hp with rfl | hp'
            · exact hacct (i, u) rfl hpd
            · exact htie p hp' hpc hpd
          · intro p hp hpd
            obtain ⟨-, hdp, -⟩ := hacc p hp
            have hcontra : dres < dmin := lt_of_le_of_lt hdle' hlt
            rw [← hdp, hpd] at hcontra
            exact absurd hcontra (lt_irrefl _)
        · intro dres h
          rw [hstep] at h
          obtain ⟨habs, -, -⟩ := ihnone dres h
          cases habs
      · -- the head vehicle does not beat the running minimum
        have hge : dmin ≤ distSq origen u.ubicacion := not_lt.mp hlt
        cases acc with
        | none =>
          have hr0 : dmin = r0 := hnone rfl
          have hstep := buscarLoop_cons_sinEleccion origen i u rest dmin hc hlt
          obtain ⟨ihsome, ihnone⟩ := ih none dmin
            (fun p hp => by cases hp) hnone
          constructor
          · intro j t dres h
            rw [hstep] at h
            obtain ⟨hmem, hcand, hdist, hltr, hdle', hmin, htie, -⟩ :=
              ihsome j t dres h
            refine ⟨?_, hcand, hdist, hltr, hdle', ?_, ?_, ?_⟩
            · rcases hmem with hmem | hmem
              · exact Or.inl (List.mem_cons_of_mem _ hmem)
              · cases hmem
            · intro p hp hpc
              rcases List.mem_cons.mp hp with rfl | hp'
              · exact le_trans hdle' hge
              · exact hmin p hp' hpc
            · intro p hp hpc hpd
              rcases List.mem_cons.mp hp with rfl | hp'
              · exact absurd (hpd ▸ lt_of_lt_of_le (hr0 ▸ hltr) hge)
                  (lt_irrefl _)
              · exact htie p hp' hpc hpd
            · intro p hp
              cases hp
          · intro dres h
            rw [hstep] at h
            obtain ⟨-, hdr, hall⟩ := ihnone dres h
            refine ⟨rfl, hdr, ?_⟩
            intro p hp hpc
            rcases List.mem_cons.mp hp with rfl | hp'
            · exact le_trans (le_of_eq hr0.symm) hge
            · exact hall p hp' hpc
        | some e =>
          obtain ⟨hce, hde, hder0⟩ := hacc e rfl
          by_cases hdeq : distSq origen u.ubicacion = dmin
          · by_cases hprom : e.2.calcular_calificacion_promedio <
                u.calcular_calificacion_promedio
            · -- tie, won by the head vehicle
              have hstep := buscarLoop_cons_empate origen i u rest e dmin
                hc hlt hdeq hprom
              obtain ⟨ihsome, ihnone⟩ := ih (some (i, u)) dmin
                (fun p hp => by
                  injection hp with hp
                  rw [← hp]
                  exact ⟨hc, hdeq, hder0⟩)
                (fun hp => by cases hp)
              constructor
              · intro j t dres h
                rw [hstep] at h
                obtain ⟨hmem, hcand, hdist, hltr, hdle', hmin, htie, hacct⟩ :=
                  ihsome j t dres h
                refine ⟨?_, hcand, hdist, hltr, hdle', ?_, ?_, ?_⟩
                · rcases hmem with hmem | hmem
                  · exact Or.inl (List.mem_cons_of_mem _ hmem)
                  · injection hmem with hmem
                    exact Or.inl (hmem ▸ List.mem_cons_self _ _)
                · intro p hp hpc
                  rcases List.mem_cons.mp hp with rfl | hp'
                  · exact le_trans hdle' (le_of_eq hdeq.symm)
                  · exact hmin p hp' hpc
                · intro p hp hpc hpd
                  rcases List.mem_cons.mp hp with rfl | hp'
                  · exact hacct (i, u) rfl hpd
                  · exact htie p hp' hpc hpd
                · intro p hp hpd
                  injection hp with hp
                  have hu : u.calcular_calificacion_promedio ≤
                      t.calcular_calificacion_promedio :=
                    hacct (i, u) rfl (by rw [hdeq, ← hde, hp, hpd])
                  rw [← hp]
                  exact le_trans (le_of_lt hprom) hu
              · intro dres h
                rw [hstep] at h
                obtain ⟨habs, -, -⟩ := ihnone dres h
                cases habs
            · -- tie, kept by the current choice
              have hstep := buscarLoop_cons_mantener origen i u rest e dmin
                hc hlt (fun hand => hprom hand.2)
              obtain ⟨ihsome, ihnone⟩ := ih (some e) dmin hacc
                (fun hp => by cases hp)
              constructor
              · intro j t dres h
                rw [hstep] at h
                obtain ⟨hmem, hcand, hdist, hltr, hdle', hmin, htie, hacct⟩ :=
                  ihsome j t dres h
                refine ⟨?_, hcand, hdist, hltr, hdle', ?_, ?_, ?_⟩
                · rcases hmem with hmem | hmem
                  · exact Or.inl (List.mem_cons_of_mem _ hmem)
                  · exact Or.inr hmem
                · intro p hp hpc
                  rcases List.mem_cons.mp hp with rfl | hp'
                  · exact le_trans hdle' (le_of_eq hdeq.symm)
                  · exact hmin p hp' hpc
                · intro p hp hpc hpd
                  rcases List.mem_cons.mp hp with rfl | hp'
                  · exact le_trans (not_lt.mp hprom)
                      (hacct e rfl (by rw [hde, ← hdeq, hpd]))
                  · exact htie p hp' hpc hpd
                · intro p hp hpd
                  exact hacct p hp hpd
              · intro dres h
                rw [hstep] at h
                obtain ⟨habs, -, -⟩ := ihnone dres h
                cases habs
          · -- strictly farther than the running minimum
            have hgt : dmin < distSq origen u.ubicacion :=
              lt_of_le_of_ne hge (fun hx => hdeq hx.symm)
            have hstep := buscarLoop_cons_mantener origen i u rest e dmin
              hc hlt (fun hand => hdeq hand.1)
            obtain ⟨ihsome, ihnone⟩ := ih (some e) dmin hacc
              (fun hp => by cases hp)
            constructor
            · intro j t dres h
              rw [hstep] at h
              obtain ⟨hmem, hcand, hdist, hltr, hdle', hmin, htie, hacct⟩ :=
                ihsome j t dres h
              refine ⟨?_, hcand, hdist, hltr, hdle', ?_, ?_, ?_⟩
              · rcases hmem with hmem | hmem
                · exact Or.inl (List.mem_cons_of_mem _ hmem)
                · exact Or.inr hmem
              · intro p hp hpc
                rcases List.mem_cons.mp hp with rfl | hp'
                · exact le_trans hdle' (le_of_lt hgt)
                · exact hmin p hp' hpc
              · intro p hp hpc hpd
                rcases List.mem_cons.mp hp with rfl | hp'
                · exact absurd (hpd ▸ lt_of_le_of_lt hdle' hgt)
                    (lt_irrefl _)
                · exact htie p hp' hpc hpd
              · intro p hp hpd
                exact hacct p hp hpd
            · intro dres h
              rw [hstep] at h
              obtain ⟨habs, -, -⟩ := ihnone dres h
              cases habs
    · -- ineligible head vehicle: skipped
      have hstep := buscarLoop_cons_skip origen i u rest acc dmin
        (Bool.not_eq_true _ ▸ Bool.of_not_eq_true hc)
      obtain ⟨ihsome, ihnone⟩ := ih acc dmin hacc hnone
      constructor
      · intro j t dres h
        rw [hstep] at h
        obtain ⟨hmem, hcand, hdist, hltr, hdle', hmin, htie, hacct⟩ :=
          ihsome j t dres h
        refine ⟨?_, hcand, hdist, hltr, hdle', ?_, ?_, hacct⟩
        · rcases hmem with hmem | hmem
          · exact Or.inl (List.mem_cons_of_mem _ hmem)
          · exact Or.inr hmem
        · intro p hp hpc
          rcases List.mem_cons.mp hp with rfl | hp'
          · exact absurd hpc hc
          · exact hmin p hp' hpc
        · intro p hp hpc hpd
          rcases List.mem_cons.mp hp with rfl | hp'
          · exact absurd hpc hc
          · exact htie p hp' hpc hpd
      · intro dres h
        rw [hstep] at h
        obtain ⟨ha, hdr, hall⟩ := ihnone dres h
        refine ⟨ha, hdr, ?_⟩
        intro p hp hpc
        rcases List.mem_cons.mp hp with rfl | hp'
        · exact absurd hpc hc
        · exact hall p hp' hpc

/-- Squared distances are nonnegative. -/
theorem distSq_nonneg (p q : ℚ × ℚ) : 0 ≤ distSq p q :=
  add_nonneg (sq_nonneg _) (sq_nonneg _)

/-- C3: over the current vehicle list, a successful
`buscar_taxi_cercano origen` returns a listed vehicle that is available
and active, whose Euclidean distance to `origen` is strictly below the
configured search radius and minimal among the available active vehicles,
beating every exactly-equidistant such vehicle's rating average; the
vehicle is marked unavailable within the same protected operation (the
only state change).  When no available active vehicle lies strictly
within the radius the call returns `none` and changes nothing. -/
theorem buscar_taxi_cercano_spec (s : SistemaState) (origen : ℚ × ℚ) :
    (∀ s' j t', buscar_taxi_cercano s origen = (s', some (j, t')) →
      ∃ tj, s.taxis[j]? = some tj ∧
        t' = { tj with disponible := false } ∧
        tj.disponible = true ∧ tj.estado = "activo" ∧
        s' = { s with taxis := s.taxis.set j t' } ∧
        Real.sqrt ((distSq origen tj.ubicacion : ℚ) : ℝ) <
          ((TAXI_CONFIG.RADIO_BUSQUEDA_KM : ℚ) : ℝ) ∧
        (∀ (i : Nat) (u : Taxi), s.taxis[i]? = some u → u.disponible = true →
          u.estado = "activo" →
          Real.sqrt ((distSq origen tj.ubicacion : ℚ) : ℝ) ≤
            Real.sqrt ((distSq origen u.ubicacion : ℚ) : ℝ) ∧
          (Real.sqrt ((distSq origen u.ubicacion : ℚ) : ℝ) =
              Real.sqrt ((distSq origen tj.ubicacion : ℚ) : ℝ) →
            u.calcular_calificacion_promedio ≤
              tj.calcular_calificacion_promedio))) ∧
    (∀ s', buscar_taxi_cercano s origen = (s', none) →
      s' = s ∧
      ∀ (i : Nat) (u : Taxi), s.taxis[i]? = some u → u.disponible = true →
        u.estado = "activo" →
        ((TAXI_CONFIG.RADIO_BUSQUEDA_KM : ℚ) : ℝ) ≤
          Real.sqrt ((distSq origen u.ubicacion : ℚ) : ℝ)) := by
  have hradpos : (0 : ℝ) < ((TAXI_CONFIG.RADIO_BUSQUEDA_KM : ℚ) : ℝ) := by
    norm_num [TAXI_CONFIG]
  obtain ⟨hsome, hnone⟩ := buscarLoop_spec origen
    (TAXI_CONFIG.RADIO_BUSQUEDA_KM ^ 2) s.taxis.enum none
    (TAXI_CONFIG.RADIO_BUSQUEDA_KM ^ 2)
    (fun p hp => by cases hp) (fun _ => rfl)
  constructor
  · intro s' j t' h
    rcases hloop : buscarLoop origen s.taxis.enum none
        (TAXI_CONFIG.RADIO_BUSQUEDA_KM ^ 2) with ⟨eleg, dres⟩
    cases eleg with
    | none =>
      simp only [buscar_taxi_cercano, hloop] at h
      injection h with h1 h2
      cases h2
    | some p =>
      obtain ⟨j₀, tj⟩ := p
      simp only [buscar_taxi_cercano, hloop] at h
      injection h with h1 h2
      injection h2 with h2
      injection h2 with hj ht
      subst h1
      subst hj
      subst ht
      obtain ⟨hmem, hcand, hdist, hlt, -, hmin, htie, -⟩ :=
        hsome j₀ tj dres hloop
      rcases hmem with hmem | hmem
      case inr => cases hmem
      have hget : s.taxis[j₀]? = some tj :=
        List.mk_mem_enum_iff_getElem?.mp hmem
      obtain ⟨hdisp, hest⟩ := (esCandidato_iff tj).mp hcand
      refine ⟨tj, hget, rfl, hdisp, hest, rfl, ?_, ?_⟩
      · rw [hdist]
        exact (Real.sqrt_lt' hradpos).mpr (by exact_mod_cast hlt)
      · intro i u hget' hdisp' hest'
        have hpmem : (i, u) ∈ s.taxis.enum :=
          List.mk_mem_enum_iff_getElem?.mpr hget'
        have hpc : esCandidato u = true := (esCandidato_iff u).mpr ⟨hdisp', hest'⟩
        constructor
        · rw [hdist]
          exact Real.sqrt_le_sqrt (by exact_mod_cast hmin (i, u) hpmem hpc)
        · intro hsqrt_eq
          have h0u : (0 : ℝ) ≤ ((distSq origen u.ubicacion : ℚ) : ℝ) := by
            exact_mod_cast distSq_nonneg origen u.ubicacion
          have h0t : (0 : ℝ) ≤ ((distSq origen tj.ubicacion : ℚ) : ℝ) := by
            exact_mod_cast distSq_nonneg origen tj.ubicacion
          have hq : distSq origen u.ubicacion = distSq origen tj.ubicacion := by
            exact_mod_cast (Real.sqrt_inj h0u h0t).mp hsqrt_eq
          exact htie (i, u) hpmem hpc (by rw [hq, hdist])
  · intro s' h
    rcases hloop : buscarLoop origen s.taxis.enum none
        (TAXI_CONFIG.RADIO_BUSQUEDA_KM ^ 2) with ⟨eleg, dres⟩
    cases eleg with
    | some p =>
      obtain ⟨j₀, tj⟩ := p
      simp only [buscar_taxi_cercano, hloop] at h
      injection h with h1 h2
      cases h2
    | none =>
      simp only [buscar_taxi_cercano, hloop] at h
      injection h with h1 h2
      obtain ⟨-, -, hall⟩ := hnone dres hloop
      refine ⟨h1.symm, ?_⟩
      intro i u hget' hdisp' hest'
      have hpmem : (i, u) ∈ s.taxis.enum :=
        List.mk_mem_enum_iff_getElem?.mpr hget'
      have hpc : esCandidato u = true := (esCandidato_iff u).mpr ⟨hdisp', hest'⟩
      have h0u : (0 : ℝ) ≤ ((distSq origen u.ubicacion : ℚ) : ℝ) := by
        exact_mod_cast distSq_nonneg origen u.ubicacion
      exact (Real.le_sqrt (le_of_lt hradpos) h0u).mpr
        (by exact_mod_cast hall (i, u) hpmem hpc)

/-- Witness for C3: the specification's tie-break scenario — two
equidistant in-radius vehicles with rating averages 3 and 5 — where the
rating-5 vehicle is chosen, reserved, at distance strictly inside the
radius, and its average dominates the equidistant competitor's. -/
theorem buscar_taxi_cercano_spec_witness :
    (buscar_taxi_cercano estadoEmpate (0, 0)).2 =
      some (1, { taxiPromedio5 with disponible := false }) ∧
    Real.sqrt ((distSq (0, 0) taxiPromedio5.ubicacion : ℚ) : ℝ) <
      ((TAXI_CONFIG.RADIO_BUSQUEDA_KM : ℚ) : ℝ) ∧
    taxiPromedio3.calcular_calificacion_promedio ≤
      taxiPromedio5.calcular_calificacion_promedio := by
  have heval : buscar_taxi_cercano estadoEmpate (0, 0) =
      ({ estadoEmpate with taxis := (estadoEmpate.taxis.set 1
          { taxiPromedio5 with disponible := false }) },
        some (1, { taxiPromedio5 with disponible := false })) := by
    norm_num [buscar_taxi_cercano, buscarLoop, List.enum, List.enumFrom,
      esCandidato, distSq, estadoEmpate, taxiPromedio3, taxiPromedio5,
      taxiNuevo, taxiNuevo2, TAXI_CONFIG, Taxi.calcular_calificacion_promedio,
      List.set]
  obtain ⟨tj, hget, -, -, -, -, hrad, hall⟩ :=
    (buscar_taxi_cercano_spec estadoEmpate (0, 0)).1 _ 1 _ heval
  have htj : tj = taxiPromedio5 := by
    simp only [estadoEmpate] at hget
    injection hget with hget
    exact hget.symm
  subst htj
  refine ⟨by rw [heval], hrad, ?_⟩
  obtain ⟨-, htie⟩ := hall 0 taxiPromedio3 (by simp [estadoEmpate]) rfl rfl
  refine htie ?_
  norm_num [distSq, taxiPromedio3, taxiPromedio5, taxiNuevo, taxiNuevo2]

/-- C6 (counterexample): at the completion of the match operation
`buscar_taxi_cercano` — its lock released, its result state observable —
the chosen vehicle is already unavailable while its rider reference is
still clear: the entity invariant fails; the reference is only established
later, in `asignar_taxi`. -/
theorem invariante_roto_tras_buscar :
    (buscar_taxi_cercano { taxis := [taxiNuevo] } (0, 0)).1.taxis =
      [{ taxiNuevo with disponible := false }] ∧
    ¬ TaxiInv { taxiNuevo with disponible := false } := by
  constructor
  · norm_num [buscar_taxi_cercano, buscarLoop, List.enum, List.enumFrom,
      esCandidato, distSq, taxiNuevo, TAXI_CONFIG]
  · simp [TaxiInv, taxiNuevo]

/-- C6 (amended): the availability/rider-reference invariant does hold for
every vehicle at the completion of `asignar_taxi` (which establishes the
reference on the reserved vehicle), of a normally completed
`realizar_servicio` (which clears both), and of the settlement — but not
at the completion of `buscar_taxi_cercano`, which reserves without
referencing (see the counterexample). -/
theorem invariante_taxi_preservado (s : SistemaState)
    (hs : ∀ t ∈ s.taxis, TaxiInv t) :
    (∀ cliente s' r, asignar_taxi s cliente = (s', r) →
      ∀ t ∈ s'.taxis, TaxiInv t) ∧
    (∀ cfg dist calificacion cliente taxi res,
      realizar_servicio cfg dist calificacion s cliente taxi = some res →
      ∀ t ∈ res.state.taxis, TaxiInv t) ∧
    (∀ t ∈ (cierre_contable_diario s).taxis, TaxiInv t) := by
  refine ⟨?_, ?_, ?_⟩
  · intro cliente s' r h t ht
    rcases hloop : buscarLoop cliente.ubicacion_actual s.taxis.enum none
        (TAXI_CONFIG.RADIO_BUSQUEDA_KM ^ 2) with ⟨eleg, dres⟩
    cases eleg with
    | none =>
      simp only [asignar_taxi, buscar_taxi_cercano, hloop] at h
      cases h
      exact hs t ht
    | some p =>
      obtain ⟨i, tsel⟩ := p
      simp only [asignar_taxi, buscar_taxi_cercano, hloop] at h
      cases h
      rw [List.set_set] at ht
      rcases List.mem_or_eq_of_mem_set ht with hmem | rfl
      · exact hs t hmem
      · simp [TaxiInv]
  · intro cfg dist calificacion cliente taxi res h t ht
    simp only [realizar_servicio] at h
    split at h
    · cases h
    · cases h
      simp only [List.mem_map] at ht
      obtain ⟨u, hu, rfl⟩ := ht
      by_cases hid : u.id_taxi = taxi.id_taxi
      · simp [hid, TaxiInv]
      · simpa [hid] using hs u hu
  · intro t ht
    simp only [cierre_contable_diario, List.mem_map] at ht
    obtain ⟨u, hu, rfl⟩ := ht
    by_cases hpos : 0 < u.ganancia_diaria
    · simpa [hpos, TaxiInv, Taxi.resetear_ganancia_diaria] using hs u hu
    · simpa [hpos] using hs u hu

/-- Witness for C6 (amended): in the one-trip-in-flight state — whose only
vehicle satisfies the invariant — settlement preserves the invariant of
that vehicle. -/
theorem invariante_taxi_preservado_witness : TaxiInv taxiReservado := by
  have h := (invariante_taxi_preservado estadoEnViaje ?_).2.2
  · exact h taxiReservado (by decide)
  · intro t ht
    simp only [estadoEnViaje, List.mem_singleton] at ht
    subst ht
    simp [TaxiInv, taxiReservado]

end UnieTaxi
